import Mathlib

/-!
Verification of the Apollo-API server (src/server/index.js): a shallow
embedding of the analyze-report pipeline, its response normalizer
(the JSON parse / validate / fallback block), the report persistence
step, and the report history query. External collaborators (the OCR
engine, the Groq completion service, JSON.parse of the platform, and
the MongoDB store) are modelled as oracle inputs to the handler;
everything the handler itself does with their results is translated
from the source.
-/

namespace Apollo

/-! ## JavaScript string primitives

The handler uses `trim`, `startsWith` and `endsWith` on JavaScript
strings; we model them over the character list of a Lean `String`. -/

/-- Whitespace test used by the model of the JavaScript `trim`. -/
def jsIsSpace (c : Char) : Bool :=
  c = ' ' || c = '\t' || c = '\n' || c = '\r'

/-- Model of the JavaScript `String.prototype.trim`. -/
def jsTrim (s : String) : String :=
  ⟨((s.data.dropWhile jsIsSpace).reverse.dropWhile jsIsSpace).reverse⟩

/-- Model of the JavaScript `String.prototype.startsWith`. -/
def jsStartsWith (s pre : String) : Bool :=
  pre.data.isPrefixOf s.data

/-- Model of the JavaScript `String.prototype.endsWith`. -/
def jsEndsWith (s suf : String) : Bool :=
  suf.data.isSuffixOf s.data

/-! ## JSON values

Values produced by `JSON.parse` and manipulated by the handler.
JavaScript arrays can additionally carry named properties (assigning
`arr.metrics = v` succeeds), so the array constructor carries a
property list besides its elements. -/

inductive Json where
  | jnull
  | jbool (b : Bool)
  | jnum (n : Int)
  | jstr (s : String)
  | jarr (elems : List Json) (props : List (String × Json))
  | jobj (fields : List (String × Json))
  deriving Repr

/-- First-match lookup in a JavaScript object property list. -/
def getAssoc : List (String × Json) → String → Option Json
  | [], _ => none
  | (k', v') :: rest, k => if k' = k then some v' else getAssoc rest k

/-- Property assignment on a JavaScript object property list:
replace the existing binding, or append a new one. -/
def setAssoc : List (String × Json) → String → Json → List (String × Json)
  | [], k, v => [(k, v)]
  | (k', v') :: rest, k, v =>
      if k' = k then (k, v) :: rest else (k', v') :: setAssoc rest k v

/-- JavaScript truthiness of a JSON value: `null`, `false`, `0` and
the empty string are falsy; every object and array is truthy. -/
def truthy : Json → Bool
  | .jnull => false
  | .jbool b => b
  | .jnum n => n != 0
  | .jstr s => s != ""
  | .jarr _ _ => true
  | .jobj _ => true

/-- Property read `j.k`: `undefined` (none) on primitives and on
missing keys; arrays answer from their named-property list. -/
def getField : Json → String → Option Json
  | .jobj fs, k => getAssoc fs k
  | .jarr _ ps, k => getAssoc ps k
  | _, _ => none

/-- Property write `j.k = v`. In strict mode (the file is an ES
module) assigning a property to a primitive throws a TypeError,
modelled as the error case. -/
def setField : Json → String → Json → Except Unit Json
  | .jobj fs, k, v => .ok (.jobj (setAssoc fs k v))
  | .jarr es ps, k, v => .ok (.jarr es (setAssoc ps k v))
  | _, _, _ => .error ()

/-- The `k in j` operator: key-presence test on objects and on array
property lists; applying it to a primitive throws a TypeError. -/
def hasFieldE : Json → String → Except Unit Bool
  | .jobj fs, k => .ok (getAssoc fs k).isSome
  | .jarr _ ps, k => .ok (getAssoc ps k).isSome
  | _, _ => .error ()

/-- The read-with-default idiom `j.k || d` of the source: the stored
value if present and truthy, otherwise the default. -/
def readOr (j : Json) (k : String) (d : Json) : Json :=
  match getField j k with
  | some v => if truthy v then v else d
  | none => d

/-! ## Response normalizer (src/server/index.js lines 511 to 571)

The JSON parse / required-field validation / defaulting block, with
the fallback record built in the catch. `JSON.parse` is a platform
primitive and enters as the oracle `jsonParse`; a parse exception is
its `none` result. -/

/-- The empty-container default written for a falsy `numericalData`
(line 526). -/
def defaultNumericalData : Json :=
  .jobj [("metrics", .jarr [] []), ("suggestedVisualizations", .jarr [] [])]

/-- The empty-container default written for a falsy
`simplifiedSummary` (lines 532 to 536). -/
def defaultSimplifiedSummary : Json :=
  .jobj [("mainPoints", .jarr [] []), ("nextSteps", .jarr [] []),
         ("medicalTerms", .jarr [] [])]

/-- The fallback analysis record built in the parse-error catch
(lines 544 to 562). -/
def fallbackAnalysis : Json :=
  .jobj [
    ("numericalData", .jobj [("metrics", .jarr [] []),
                             ("suggestedVisualizations", .jarr [] [])]),
    ("keyFindings", .jarr [
       .jobj [("finding", .jstr "Error processing report"),
              ("severity", .jstr "warning"),
              ("category", .jstr "System Error"),
              ("explanation", .jstr "The system encountered an error while analyzing the report. Please try again or contact support.")]] []),
    ("recommendations", .jarr [] []),
    ("urgentConcerns", .jarr [] []),
    ("simplifiedSummary", .jobj [
       ("mainPoints", .jarr [.jstr "Error in report analysis"] []),
       ("nextSteps", .jarr [.jstr "Please try uploading the report again"] []),
       ("medicalTerms", .jarr [] [])])]

/-- The five required top-level sections (line 518). -/
def requiredFields : List String :=
  ["numericalData", "keyFindings", "recommendations", "urgentConcerns",
   "simplifiedSummary"]

/-- The missing-field validation (lines 518 to 523): each
`field in parsedAnalysis` test may itself throw on a primitive; a
non-empty `missingFields` list throws. -/
def checkRequired (p : Json) : Except Unit Unit :=
  match hasFieldE p "numericalData", hasFieldE p "keyFindings",
        hasFieldE p "recommendations", hasFieldE p "urgentConcerns",
        hasFieldE p "simplifiedSummary" with
  | .ok c1, .ok c2, .ok c3, .ok c4, .ok c5 =>
      if c1 && c2 && c3 && c4 && c5 then .ok () else .error ()
  | _, _, _, _, _ => .error ()

/-- The two nested assignments into `parsedAnalysis.numericalData`
(lines 527 and 528), operating on the value stored there. -/
def nestedDefault (nd : Json) : Except Unit Json := do
  let nd2 ← setField nd "metrics" (readOr nd "metrics" (.jarr [] []))
  setField nd2 "suggestedVisualizations"
    (readOr nd2 "suggestedVisualizations" (.jarr [] []))

/-- Lines 527 and 528 as seen from the top-level record: read
`parsedAnalysis.numericalData`, default its two sub-arrays in place,
write the result back.  Reading the field off a record that lacks it
and then assigning through `undefined` throws, hence the error
branch. -/
def defaultNested (p : Json) : Except Unit Json :=
  match getField p "numericalData" with
  | none => .error ()
  | some nd => do
      let nd' ← nestedDefault nd
      setField p "numericalData" nd'

/-- The defaulting sequence of lines 526 to 536, in source order. -/
def defaultFields (p : Json) : Except Unit Json := do
  let p1 ← setField p "numericalData"
    (readOr p "numericalData" defaultNumericalData)
  let p2 ← defaultNested p1
  let p3 ← setField p2 "keyFindings" (readOr p2 "keyFindings" (.jarr [] []))
  let p4 ← setField p3 "recommendations"
    (readOr p3 "recommendations" (.jarr [] []))
  let p5 ← setField p4 "urgentConcerns"
    (readOr p4 "urgentConcerns" (.jarr [] []))
  setField p5 "simplifiedSummary"
    (readOr p5 "simplifiedSummary" defaultSimplifiedSummary)

/-- The body of the parse try block after a successful `JSON.parse`:
validation then defaulting; any throw falls to the catch. -/
def validateAndDefault (p : Json) : Except Unit Json :=
  match checkRequired p with
  | .error _ => .error ()
  | .ok _ => defaultFields p

/-- The whole parse / validate / fallback block: the returned flag
records whether the catch ran, i.e. whether the response will carry
the degradation warning. -/
def normalize (jsonParse : String → Option Json) (analysis : String) :
    Json × Bool :=
  match jsonParse analysis with
  | none => (fallbackAnalysis, true)
  | some p =>
    match validateAndDefault p with
    | .error _ => (fallbackAnalysis, true)
    | .ok r => (r, false)

/-! ## Pipeline orchestrator (src/server/index.js lines 392 to 602)

The analyze-report handler as a function of the outcomes of its
external collaborators. `Except .error` carries the message of a
thrown or rejected call. -/

/-- Outcomes of the external collaborators consulted by one
analyze-report request, in call order: upload presence,
`createWorker`, `worker.recognize` (its `data.text` on success), the
Groq chat completion (its message content on success), the platform
`JSON.parse`, and `report.save`. -/
structure Oracles where
  hasFile : Bool
  createWorkerResult : Except String Unit
  recognizeResult : Except String String
  groqResult : Except String String
  jsonParse : String → Option Json
  saveResult : Except String Unit

/-- The JSON body and status a handler branch sends; absent body
fields are `none`. -/
structure HttpResponse where
  status : Nat
  success : Option Bool
  err : Option String
  details : Option String
  text : Option String
  analysis : Option Json
  warning : Option String

/-- The document constructed for `new Report({...})` at the save
step (lines 575 to 579): exactly these three fields, plus a
store-side `createdAt` default. -/
structure ReportDoc where
  originalText : String
  summary : String
  analysis : Json

/-- Observable side effects of one request: which stages ran, the
worker lifecycle, the document handed to `save`, and whether the
store accepted it. -/
structure Trace where
  workerCreated : Bool
  workerTerminated : Bool
  groqCalled : Bool
  normalizeRun : Bool
  saveAttempted : Bool
  savedReport : Option ReportDoc
  storedOk : Bool

/-- The POST analyze-report handler. Mirrors the source branch for
branch: missing file (line 395), worker init failure (line 413), OCR
failure with terminate-in-catch (line 429), terminate after success
(line 428), the empty-text gate (line 439), the Groq try block with
its empty-content and curly-brace throws (lines 489 to 509), the
parse / validate / fallback block with its early degraded return
(lines 511 to 571), and the save try whose failure is only logged
(lines 573 to 591). -/
def analyzeReport (o : Oracles) : HttpResponse × Trace :=
  if o.hasFile then
    match o.createWorkerResult with
    | .error msg =>
        (⟨500, some false, some "Failed to initialize text recognition",
          some msg, none, none, none⟩,
         ⟨false, false, false, false, false, none, false⟩)
    | .ok _ =>
      match o.recognizeResult with
      | .error msg =>
          (⟨500, some false, some "Failed to process image", some msg,
            none, none, none⟩,
           ⟨true, true, false, false, false, none, false⟩)
      | .ok text =>
        if jsTrim text = "" then
          (⟨400, some false,
            some "No text could be extracted from the image", none,
            none, none, none⟩,
           ⟨true, true, false, false, false, none, false⟩)
        else
          match o.groqResult with
          | .error msg =>
              (⟨500, some false, some "Failed to analyze report", some msg,
                none, none, none⟩,
               ⟨true, true, true, false, false, none, false⟩)
          | .ok content =>
            if content = "" then
              (⟨500, some false, some "Failed to analyze report",
                some "Empty response from Groq API", none, none, none⟩,
               ⟨true, true, true, false, false, none, false⟩)
            else
              let analysis := jsTrim content
              if !(jsStartsWith analysis "\x7b" && jsEndsWith analysis "\x7d") then
                (⟨500, some false, some "Failed to analyze report",
                  some "Invalid JSON structure in API response",
                  none, none, none⟩,
                 ⟨true, true, true, false, false, none, false⟩)
              else
                match normalize o.jsonParse analysis with
                | (r, true) =>
                    (⟨200, some true, none, none, some text, some r,
                      some "Error parsing AI response, showing fallback analysis"⟩,
                     ⟨true, true, true, true, false, none, false⟩)
                | (r, false) =>
                    (⟨200, some true, none, none, some text, some r, none⟩,
                     ⟨true, true, true, true, true,
                      some ⟨text, analysis, r⟩,
                      match o.saveResult with
                      | .ok _ => true
                      | .error _ => false⟩)
  else
    (⟨400, some false, some "No file uploaded", none, none, none, none⟩,
     ⟨false, false, false, false, false, none, false⟩)

/-! ## Report history (src/server/index.js lines 322 to 389 and 604 to 612) -/

/-- The top-level field names declared by the Mongoose report schema
(lines 323 to 387). -/
def reportSchemaFields : List String :=
  ["originalText", "summary", "analysis", "createdAt"]

/-- A report document at rest in the store, with its `createdAt`
stamp. -/
structure StoredReport where
  originalText : String
  summary : String
  analysis : Json
  createdAt : Nat

/-- The query order `sort({createdAt: -1})`: later stamps first. -/
def newerFirst (a b : StoredReport) : Prop :=
  b.createdAt ≤ a.createdAt

instance : DecidableRel newerFirst :=
  fun a b => inferInstanceAs (Decidable (b.createdAt ≤ a.createdAt))

instance : IsTotal StoredReport newerFirst :=
  ⟨fun a b => Nat.le_total b.createdAt a.createdAt⟩

instance : IsTrans StoredReport newerFirst :=
  ⟨fun _ _ _ h1 h2 => Nat.le_trans h2 h1⟩

/-- The GET reports query
`Report.find().sort({createdAt: -1}).limit(10)` (line 607): every
stored document, sorted newest first, truncated to ten. No filter of
any kind is applied before the sort. -/
def findReports (store : List StoredReport) : List StoredReport :=
  (List.insertionSort newerFirst store).take 10

/-- The GET reports handler: the query result as the body on
success, a 500 with the fixed message when the query rejects. -/
def getReports (store : List StoredReport) (findOk : Bool) :
    Nat × Option (List StoredReport) × Option String :=
  if findOk then (200, some (findReports store), none)
  else (500, none, some "Error fetching reports")

/-- What lines 527 and 528 turn a truthy object-valued
`numericalData` into. -/
def ndDefaulted (nf : List (String × Json)) : Json :=
  .jobj (setAssoc
    (setAssoc nf "metrics" (readOr (.jobj nf) "metrics" (.jarr [] [])))
    "suggestedVisualizations"
    (readOr (.jobj (setAssoc nf "metrics" (readOr (.jobj nf) "metrics" (.jarr [] []))))
      "suggestedVisualizations" (.jarr [] [])))

def fr2 (o nf : List (String × Json)) : List (String × Json) :=
  setAssoc (setAssoc o "numericalData" (.jobj nf)) "numericalData" (ndDefaulted nf)

def fr3 (o nf : List (String × Json)) : List (String × Json) :=
  setAssoc (fr2 o nf) "keyFindings" (readOr (.jobj o) "keyFindings" (.jarr [] []))

def fr4 (o nf : List (String × Json)) : List (String × Json) :=
  setAssoc (fr3 o nf) "recommendations" (readOr (.jobj o) "recommendations" (.jarr [] []))

def fr5 (o nf : List (String × Json)) : List (String × Json) :=
  setAssoc (fr4 o nf) "urgentConcerns" (readOr (.jobj o) "urgentConcerns" (.jarr [] []))

/-- The record produced by the defaulting block on an object whose
truthy-or-defaulted `numericalData` is the object `nf`. -/
def filledRecord (o nf : List (String × Json)) : Json :=
  .jobj (setAssoc (fr5 o nf) "simplifiedSummary"
    (readOr (.jobj o) "simplifiedSummary" defaultSimplifiedSummary))

/-- A record holds all five required sections. -/
def hasAllRequired (r : Json) : Bool :=
  requiredFields.all (fun k => (getField r k).isSome)

/-- Array test used to state the container-type facts. -/
def Json.isArr : Json → Bool
  | .jarr _ _ => true
  | _ => false

def c2obj : List (String × Json) :=
  [("numericalData", .jnull), ("keyFindings", .jarr [] []),
   ("recommendations", .jnull), ("urgentConcerns", .jarr [] []),
   ("simplifiedSummary", .jnull)]

def c2str : String :=
  "\x7b\"numericalData\":null,\"keyFindings\":[],\"recommendations\":null,\"urgentConcerns\":[],\"simplifiedSummary\":null\x7d"

def c2jp : String → Option Json :=
  fun s => if s = c2str then some (.jobj c2obj) else none

def c3obj : List (String × Json) :=
  [("numericalData", .jobj []), ("keyFindings", .jstr "oops"),
   ("recommendations", .jarr [] []), ("urgentConcerns", .jarr [] []),
   ("simplifiedSummary", .jobj [])]

def c3str : String :=
  "\x7b\"numericalData\":\x7b\x7d,\"keyFindings\":\"oops\",\"recommendations\":[],\"urgentConcerns\":[],\"simplifiedSummary\":\x7b\x7d\x7d"

def c3jp : String → Option Json :=
  fun s => if s = c3str then some (.jobj c3obj) else none

def c7obj : List (String × Json) :=
  [("numericalData", .jobj []), ("keyFindings", .jarr [] []),
   ("recommendations", .jarr [] []), ("urgentConcerns", .jarr [] []),
   ("simplifiedSummary", .jobj [])]

def c7raw : String :=
  "\x7b\"numericalData\":\x7b\x7d,\"keyFindings\":[],\"recommendations\":[],\"urgentConcerns\":[],\"simplifiedSummary\":\x7b\x7d\x7d"

def c7jp : String → Option Json :=
  fun s => if s = c7raw then some (.jobj c7obj) else none

def c10obj : List (String × Json) :=
  [("numericalData", .jobj []), ("keyFindings", .jarr [] []),
   ("recommendations", .jarr [] []), ("urgentConcerns", .jarr [] []),
   ("simplifiedSummary", .jobj [])]

def c10str : String :=
  "\x7b\"numericalData\":\x7b\x7d,\"keyFindings\":[],\"recommendations\":[],\"urgentConcerns\":[],\"simplifiedSummary\":\x7b\x7d\x7d"

def c10jp : String → Option Json :=
  fun s => if s = c10str then some (.jobj c10obj) else none

/-- A value on which JavaScript property assignment succeeds: an
object or an array. Assigning to any other value throws in strict
mode. -/
def isObjLike : Json → Bool
  | .jobj _ => true
  | .jarr _ _ => true
  | _ => false

/-- What lines 527 and 528 turn any assignable (object or array)
`numericalData` value into: both sub-array slots defaulted in
source order. On a non-assignable value it is irrelevant (the code
throws there). -/
def ndDefaultedG (v : Json) : Json :=
  match setField v "metrics" (readOr v "metrics" (.jarr [] [])) with
  | .error _ => v
  | .ok v2 =>
    match setField v2 "suggestedVisualizations"
        (readOr v2 "suggestedVisualizations" (.jarr [] [])) with
    | .error _ => v
    | .ok v3 => v3

def fr2G (o : List (String × Json)) (v : Json) : List (String × Json) :=
  setAssoc (setAssoc o "numericalData" v) "numericalData" (ndDefaultedG v)

def fr3G (o : List (String × Json)) (v : Json) : List (String × Json) :=
  setAssoc (fr2G o v) "keyFindings" (readOr (.jobj o) "keyFindings" (.jarr [] []))

def fr4G (o : List (String × Json)) (v : Json) : List (String × Json) :=
  setAssoc (fr3G o v) "recommendations"
    (readOr (.jobj o) "recommendations" (.jarr [] []))

def fr5G (o : List (String × Json)) (v : Json) : List (String × Json) :=
  setAssoc (fr4G o v) "urgentConcerns"
    (readOr (.jobj o) "urgentConcerns" (.jarr [] []))

/-- The record produced by the defaulting block on an object whose
truthy-or-defaulted `numericalData` is the assignable value `v`. -/
def filledRecordG (o : List (String × Json)) (v : Json) : Json :=
  .jobj (setAssoc (fr5G o v) "simplifiedSummary"
    (readOr (.jobj o) "simplifiedSummary" defaultSimplifiedSummary))

/-! ## Lemmas and claim theorems -/

theorem getAssoc_setAssoc_self (l : List (String × Json)) (k : String) (v : Json) :
    getAssoc (setAssoc l k v) k = some v := by
  induction l with
  | nil => simp [setAssoc, getAssoc]
  | cons hd t ih =>
    obtain ⟨k', v'⟩ := hd
    by_cases hk : k' = k
    · simp [setAssoc, hk, getAssoc]
    · simp [setAssoc, hk, getAssoc, ih]

theorem getAssoc_setAssoc_ne (l : List (String × Json)) (k k' : String) (v : Json)
    (h : k' ≠ k) : getAssoc (setAssoc l k v) k' = getAssoc l k' := by
  have h' : k ≠ k' := fun he => h he.symm
  induction l with
  | nil => simp [setAssoc, getAssoc, h']
  | cons hd t ih =>
    obtain ⟨k'', v''⟩ := hd
    by_cases hk : k'' = k
    · subst hk
      simp [setAssoc, getAssoc, h']
    · simp [setAssoc, hk, getAssoc, ih]

theorem setField_jobj (l : List (String × Json)) (k : String) (v : Json) :
    setField (.jobj l) k v = .ok (.jobj (setAssoc l k v)) := rfl

theorem getField_jobj (l : List (String × Json)) (k : String) :
    getField (.jobj l) k = getAssoc l k := rfl

theorem readOr_congr {j j' : Json} (k : String) (d : Json)
    (h : getField j k = getField j' k) : readOr j k d = readOr j' k d := by
  rw [readOr, readOr, h]

theorem nestedDefault_jobj (nf : List (String × Json)) :
    nestedDefault (.jobj nf) = .ok (ndDefaulted nf) := rfl

theorem fr2_get (o nf : List (String × Json)) (k : String)
    (h : k ≠ "numericalData") : getAssoc (fr2 o nf) k = getAssoc o k := by
  rw [fr2, getAssoc_setAssoc_ne _ _ _ _ h, getAssoc_setAssoc_ne _ _ _ _ h]

theorem fr3_get (o nf : List (String × Json)) (k : String)
    (h1 : k ≠ "numericalData") (h2 : k ≠ "keyFindings") :
    getAssoc (fr3 o nf) k = getAssoc o k := by
  rw [fr3, getAssoc_setAssoc_ne _ _ _ _ h2, fr2_get _ _ _ h1]

theorem fr4_get (o nf : List (String × Json)) (k : String)
    (h1 : k ≠ "numericalData") (h2 : k ≠ "keyFindings")
    (h3 : k ≠ "recommendations") :
    getAssoc (fr4 o nf) k = getAssoc o k := by
  rw [fr4, getAssoc_setAssoc_ne _ _ _ _ h3, fr3_get _ _ _ h1 h2]

theorem fr5_get (o nf : List (String × Json)) (k : String)
    (h1 : k ≠ "numericalData") (h2 : k ≠ "keyFindings")
    (h3 : k ≠ "recommendations") (h4 : k ≠ "urgentConcerns") :
    getAssoc (fr5 o nf) k = getAssoc o k := by
  rw [fr5, getAssoc_setAssoc_ne _ _ _ _ h4, fr4_get _ _ _ h1 h2 h3]

theorem normalize_success
    (jp : String → Option Json) (s : String)
    (o nf : List (String × Json))
    (hparse : jp s = some (.jobj o))
    (h1 : (getAssoc o "numericalData").isSome = true)
    (h2 : (getAssoc o "keyFindings").isSome = true)
    (h3 : (getAssoc o "recommendations").isSome = true)
    (h4 : (getAssoc o "urgentConcerns").isSome = true)
    (h5 : (getAssoc o "simplifiedSummary").isSome = true)
    (hnf : readOr (.jobj o) "numericalData" defaultNumericalData = .jobj nf) :
    normalize jp s = (filledRecord o nf, false) := by
  have hcr : checkRequired (.jobj o) = .ok () := by
    simp [checkRequired, hasFieldE, h1, h2, h3, h4, h5]
  have g2 : getAssoc (setAssoc o "numericalData" (.jobj nf)) "numericalData"
      = some (.jobj nf) := getAssoc_setAssoc_self _ _ _
  have r3 : readOr (.jobj (fr2 o nf)) "keyFindings" (.jarr [] [])
      = readOr (.jobj o) "keyFindings" (.jarr [] []) :=
    readOr_congr _ _ (by rw [getField_jobj, getField_jobj, fr2_get _ _ _ (by decide)])
  have r4 : readOr (.jobj (fr3 o nf)) "recommendations" (.jarr [] [])
      = readOr (.jobj o) "recommendations" (.jarr [] []) :=
    readOr_congr _ _
      (by rw [getField_jobj, getField_jobj, fr3_get _ _ _ (by decide) (by decide)])
  have r5 : readOr (.jobj (fr4 o nf)) "urgentConcerns" (.jarr [] [])
      = readOr (.jobj o) "urgentConcerns" (.jarr [] []) :=
    readOr_congr _ _
      (by rw [getField_jobj, getField_jobj,
        fr4_get _ _ _ (by decide) (by decide) (by decide)])
  have r6 : readOr (.jobj (fr5 o nf)) "simplifiedSummary" defaultSimplifiedSummary
      = readOr (.jobj o) "simplifiedSummary" defaultSimplifiedSummary :=
    readOr_congr _ _
      (by rw [getField_jobj, getField_jobj,
        fr5_get _ _ _ (by decide) (by decide) (by decide) (by decide)])
  have hdf : defaultFields (.jobj o) = .ok (filledRecord o nf) := by
    simp only [filledRecord, fr5, fr4, fr3, fr2] at r3 r4 r5 r6 ⊢
    simp only [defaultFields, Bind.bind, Except.bind, hnf, setField_jobj,
      defaultNested, getField_jobj, g2, nestedDefault_jobj, r3, r4, r5, r6]
  simp only [normalize, hparse, validateAndDefault, hcr, hdf]

theorem getField_setField_self {j j' : Json} {k : String} {v : Json}
    (h : setField j k v = .ok j') : getField j' k = some v := by
  cases j with
  | jobj fs =>
      rw [setField_jobj] at h
      cases h
      rw [getField_jobj, getAssoc_setAssoc_self]
  | jarr es ps =>
      rw [setField] at h
      cases h
      rw [getField, getAssoc_setAssoc_self]
  | jnull => simp [setField] at h
  | jbool b => simp [setField] at h
  | jnum n => simp [setField] at h
  | jstr s => simp [setField] at h

theorem getField_setField_ne {j j' : Json} {k k' : String} {v : Json}
    (h : setField j k v = .ok j') (hne : k' ≠ k) :
    getField j' k' = getField j k' := by
  cases j with
  | jobj fs =>
      rw [setField_jobj] at h
      cases h
      rw [getField_jobj, getField_jobj, getAssoc_setAssoc_ne _ _ _ _ hne]
  | jarr es ps =>
      rw [setField] at h
      cases h
      rw [getField, getField, getAssoc_setAssoc_ne _ _ _ _ hne]
  | jnull => simp [setField] at h
  | jbool b => simp [setField] at h
  | jnum n => simp [setField] at h
  | jstr s => simp [setField] at h

theorem except_bind_ok {α β : Type} {x : Except Unit α} {f : α → Except Unit β}
    {b : β} (h : (x >>= f) = .ok b) : ∃ a, x = .ok a ∧ f a = .ok b := by
  cases x with
  | error e => exact absurd h (by simp [Bind.bind, Except.bind])
  | ok a => exact ⟨a, rfl, by simpa [Bind.bind, Except.bind] using h⟩

theorem defaultFields_total {p r : Json} (h : defaultFields p = .ok r) :
    hasAllRequired r = true := by
  rw [defaultFields] at h
  obtain ⟨p1, hp1, h⟩ := except_bind_ok h
  obtain ⟨p2, hp2, h⟩ := except_bind_ok h
  obtain ⟨p3, hp3, h⟩ := except_bind_ok h
  obtain ⟨p4, hp4, h⟩ := except_bind_ok h
  obtain ⟨p5, hp5, h⟩ := except_bind_ok h
  -- numericalData is present in p2 and survives to r
  rw [defaultNested] at hp2
  have hnd2 : (getField p2 "numericalData").isSome = true := by
    cases hg : getField p1 "numericalData" with
    | none => rw [hg] at hp2; exact absurd hp2 (fun h => Except.noConfusion h)
    | some nd =>
        rw [hg] at hp2
        obtain ⟨nd', hnd', hset⟩ := except_bind_ok hp2
        rw [getField_setField_self hset]
        rfl
  have hndr : (getField r "numericalData").isSome = true := by
    rw [getField_setField_ne h (by decide), getField_setField_ne hp5 (by decide),
      getField_setField_ne hp4 (by decide), getField_setField_ne hp3 (by decide)]
    exact hnd2
  have hkfr : (getField r "keyFindings").isSome = true := by
    rw [getField_setField_ne h (by decide), getField_setField_ne hp5 (by decide),
      getField_setField_ne hp4 (by decide), getField_setField_self hp3]
    rfl
  have hrcr : (getField r "recommendations").isSome = true := by
    rw [getField_setField_ne h (by decide), getField_setField_ne hp5 (by decide),
      getField_setField_self hp4]
    rfl
  have hucr : (getField r "urgentConcerns").isSome = true := by
    rw [getField_setField_ne h (by decide), getField_setField_self hp5]
    rfl
  have hssr : (getField r "simplifiedSummary").isSome = true := by
    rw [getField_setField_self h]
    rfl
  simp [hasAllRequired, requiredFields, hndr, hkfr, hrcr, hucr, hssr]

-- filledRecord projections
theorem filledRecord_get_nd (o nf : List (String × Json)) :
    getField (filledRecord o nf) "numericalData" = some (ndDefaulted nf) := by
  rw [filledRecord, getField_jobj, getAssoc_setAssoc_ne _ _ _ _ (by decide),
    fr5, getAssoc_setAssoc_ne _ _ _ _ (by decide),
    fr4, getAssoc_setAssoc_ne _ _ _ _ (by decide),
    fr3, getAssoc_setAssoc_ne _ _ _ _ (by decide),
    fr2, getAssoc_setAssoc_self]

theorem filledRecord_get_kf (o nf : List (String × Json)) :
    getField (filledRecord o nf) "keyFindings"
      = some (readOr (.jobj o) "keyFindings" (.jarr [] [])) := by
  rw [filledRecord, getField_jobj, getAssoc_setAssoc_ne _ _ _ _ (by decide),
    fr5, getAssoc_setAssoc_ne _ _ _ _ (by decide),
    fr4, getAssoc_setAssoc_ne _ _ _ _ (by decide),
    fr3, getAssoc_setAssoc_self]

theorem filledRecord_get_rc (o nf : List (String × Json)) :
    getField (filledRecord o nf) "recommendations"
      = some (readOr (.jobj o) "recommendations" (.jarr [] [])) := by
  rw [filledRecord, getField_jobj, getAssoc_setAssoc_ne _ _ _ _ (by decide),
    fr5, getAssoc_setAssoc_ne _ _ _ _ (by decide),
    fr4, getAssoc_setAssoc_self]

theorem filledRecord_get_uc (o nf : List (String × Json)) :
    getField (filledRecord o nf) "urgentConcerns"
      = some (readOr (.jobj o) "urgentConcerns" (.jarr [] [])) := by
  rw [filledRecord, getField_jobj, getAssoc_setAssoc_ne _ _ _ _ (by decide),
    fr5, getAssoc_setAssoc_self]

theorem filledRecord_get_ss (o nf : List (String × Json)) :
    getField (filledRecord o nf) "simplifiedSummary"
      = some (readOr (.jobj o) "simplifiedSummary" defaultSimplifiedSummary) := by
  rw [filledRecord, getField_jobj, getAssoc_setAssoc_self]

theorem filledRecord_get_other (o nf : List (String × Json)) (k : String)
    (d1 : k ≠ "numericalData") (d2 : k ≠ "keyFindings")
    (d3 : k ≠ "recommendations") (d4 : k ≠ "urgentConcerns")
    (d5 : k ≠ "simplifiedSummary") :
    getField (filledRecord o nf) k = getAssoc o k := by
  rw [filledRecord, getField_jobj, getAssoc_setAssoc_ne _ _ _ _ d5,
    fr5_get _ _ _ d1 d2 d3 d4]

theorem ndDefaulted_get_metrics (nf : List (String × Json)) :
    getField (ndDefaulted nf) "metrics"
      = some (readOr (.jobj nf) "metrics" (.jarr [] [])) := by
  rw [ndDefaulted, getField_jobj, getAssoc_setAssoc_ne _ _ _ _ (by decide),
    getAssoc_setAssoc_self]

theorem ndDefaulted_get_sv (nf : List (String × Json)) :
    getField (ndDefaulted nf) "suggestedVisualizations"
      = some (readOr
          (.jobj (setAssoc nf "metrics" (readOr (.jobj nf) "metrics" (.jarr [] []))))
          "suggestedVisualizations" (.jarr [] [])) := by
  rw [ndDefaulted, getField_jobj, getAssoc_setAssoc_self]

theorem normalize_missing
    (jp : String → Option Json) (s : String) (o : List (String × Json))
    (hparse : jp s = some (.jobj o)) (k : String) (hk : k ∈ requiredFields)
    (hnone : getAssoc o k = none) :
    normalize jp s = (fallbackAnalysis, true) := by
  have hcr : checkRequired (.jobj o) = .error () := by
    fin_cases hk <;> simp [checkRequired, hasFieldE, hnone]
  simp only [normalize, hparse, validateAndDefault, hcr]

theorem setField_notObjLike (v : Json) (k : String) (w : Json)
    (h : isObjLike v = false) : setField v k w = .error () := by
  cases v <;> simp_all [isObjLike, setField]

theorem truthy_of_objLike {v : Json} (h : isObjLike v = true) :
    truthy v = true := by
  cases v <;> simp_all [isObjLike, truthy]

theorem nestedDefault_objLike (v : Json) (h : isObjLike v = true) :
    nestedDefault v = .ok (ndDefaultedG v) := by
  cases v <;> simp_all [isObjLike] <;> rfl

theorem fr2G_get (o : List (String × Json)) (v : Json) (k : String)
    (h : k ≠ "numericalData") : getAssoc (fr2G o v) k = getAssoc o k := by
  rw [fr2G, getAssoc_setAssoc_ne _ _ _ _ h, getAssoc_setAssoc_ne _ _ _ _ h]

theorem fr3G_get (o : List (String × Json)) (v : Json) (k : String)
    (h1 : k ≠ "numericalData") (h2 : k ≠ "keyFindings") :
    getAssoc (fr3G o v) k = getAssoc o k := by
  rw [fr3G, getAssoc_setAssoc_ne _ _ _ _ h2, fr2G_get _ _ _ h1]

theorem fr4G_get (o : List (String × Json)) (v : Json) (k : String)
    (h1 : k ≠ "numericalData") (h2 : k ≠ "keyFindings")
    (h3 : k ≠ "recommendations") :
    getAssoc (fr4G o v) k = getAssoc o k := by
  rw [fr4G, getAssoc_setAssoc_ne _ _ _ _ h3, fr3G_get _ _ _ h1 h2]

theorem fr5G_get (o : List (String × Json)) (v : Json) (k : String)
    (h1 : k ≠ "numericalData") (h2 : k ≠ "keyFindings")
    (h3 : k ≠ "recommendations") (h4 : k ≠ "urgentConcerns") :
    getAssoc (fr5G o v) k = getAssoc o k := by
  rw [fr5G, getAssoc_setAssoc_ne _ _ _ _ h4, fr4G_get _ _ _ h1 h2 h3]

theorem normalize_successG
    (jp : String → Option Json) (s : String)
    (o : List (String × Json)) (v : Json)
    (hparse : jp s = some (.jobj o))
    (h1 : (getAssoc o "numericalData").isSome = true)
    (h2 : (getAssoc o "keyFindings").isSome = true)
    (h3 : (getAssoc o "recommendations").isSome = true)
    (h4 : (getAssoc o "urgentConcerns").isSome = true)
    (h5 : (getAssoc o "simplifiedSummary").isSome = true)
    (hv : readOr (.jobj o) "numericalData" defaultNumericalData = v)
    (hobj : isObjLike v = true) :
    normalize jp s = (filledRecordG o v, false) := by
  have hcr : checkRequired (.jobj o) = .ok () := by
    simp [checkRequired, hasFieldE, h1, h2, h3, h4, h5]
  have g2 : getAssoc (setAssoc o "numericalData" v) "numericalData"
      = some v := getAssoc_setAssoc_self _ _ _
  have hnd : nestedDefault v = .ok (ndDefaultedG v) := nestedDefault_objLike v hobj
  have r3 : readOr (.jobj (fr2G o v)) "keyFindings" (.jarr [] [])
      = readOr (.jobj o) "keyFindings" (.jarr [] []) :=
    readOr_congr _ _ (by rw [getField_jobj, getField_jobj, fr2G_get _ _ _ (by decide)])
  have r4 : readOr (.jobj (fr3G o v)) "recommendations" (.jarr [] [])
      = readOr (.jobj o) "recommendations" (.jarr [] []) :=
    readOr_congr _ _
      (by rw [getField_jobj, getField_jobj, fr3G_get _ _ _ (by decide) (by decide)])
  have r5 : readOr (.jobj (fr4G o v)) "urgentConcerns" (.jarr [] [])
      = readOr (.jobj o) "urgentConcerns" (.jarr [] []) :=
    readOr_congr _ _
      (by rw [getField_jobj, getField_jobj,
        fr4G_get _ _ _ (by decide) (by decide) (by decide)])
  have r6 : readOr (.jobj (fr5G o v)) "simplifiedSummary" defaultSimplifiedSummary
      = readOr (.jobj o) "simplifiedSummary" defaultSimplifiedSummary :=
    readOr_congr _ _
      (by rw [getField_jobj, getField_jobj,
        fr5G_get _ _ _ (by decide) (by decide) (by decide) (by decide)])
  have hdf : defaultFields (.jobj o) = .ok (filledRecordG o v) := by
    simp only [filledRecordG, fr5G, fr4G, fr3G, fr2G] at r3 r4 r5 r6 ⊢
    simp only [defaultFields, Bind.bind, Except.bind, hv, setField_jobj,
      defaultNested, getField_jobj, g2, hnd, r3, r4, r5, r6]
  simp only [normalize, hparse, validateAndDefault, hcr, hdf]

theorem filledRecordG_get_nd (o : List (String × Json)) (v : Json) :
    getField (filledRecordG o v) "numericalData" = some (ndDefaultedG v) := by
  rw [filledRecordG, getField_jobj, getAssoc_setAssoc_ne _ _ _ _ (by decide),
    fr5G, getAssoc_setAssoc_ne _ _ _ _ (by decide),
    fr4G, getAssoc_setAssoc_ne _ _ _ _ (by decide),
    fr3G, getAssoc_setAssoc_ne _ _ _ _ (by decide),
    fr2G, getAssoc_setAssoc_self]

theorem filledRecordG_get_kf (o : List (String × Json)) (v : Json) :
    getField (filledRecordG o v) "keyFindings"
      = some (readOr (.jobj o) "keyFindings" (.jarr [] [])) := by
  rw [filledRecordG, getField_jobj, getAssoc_setAssoc_ne _ _ _ _ (by decide),
    fr5G, getAssoc_setAssoc_ne _ _ _ _ (by decide),
    fr4G, getAssoc_setAssoc_ne _ _ _ _ (by decide),
    fr3G, getAssoc_setAssoc_self]

theorem filledRecordG_get_rc (o : List (String × Json)) (v : Json) :
    getField (filledRecordG o v) "recommendations"
      = some (readOr (.jobj o) "recommendations" (.jarr [] [])) := by
  rw [filledRecordG, getField_jobj, getAssoc_setAssoc_ne _ _ _ _ (by decide),
    fr5G, getAssoc_setAssoc_ne _ _ _ _ (by decide),
    fr4G, getAssoc_setAssoc_self]

theorem filledRecordG_get_uc (o : List (String × Json)) (v : Json) :
    getField (filledRecordG o v) "urgentConcerns"
      = some (readOr (.jobj o) "urgentConcerns" (.jarr [] [])) := by
  rw [filledRecordG, getField_jobj, getAssoc_setAssoc_ne _ _ _ _ (by decide),
    fr5G, getAssoc_setAssoc_self]

theorem filledRecordG_get_ss (o : List (String × Json)) (v : Json) :
    getField (filledRecordG o v) "simplifiedSummary"
      = some (readOr (.jobj o) "simplifiedSummary" defaultSimplifiedSummary) := by
  rw [filledRecordG, getField_jobj, getAssoc_setAssoc_self]

theorem filledRecordG_get_other (o : List (String × Json)) (v : Json) (k : String)
    (d1 : k ≠ "numericalData") (d2 : k ≠ "keyFindings")
    (d3 : k ≠ "recommendations") (d4 : k ≠ "urgentConcerns")
    (d5 : k ≠ "simplifiedSummary") :
    getField (filledRecordG o v) k = getAssoc o k := by
  rw [filledRecordG, getField_jobj, getAssoc_setAssoc_ne _ _ _ _ d5,
    fr5G_get _ _ _ d1 d2 d3 d4]

/-- C4: the HTTP-visible outcome of analyze-report is identical
whether the store save succeeds or fails; the failure is only
logged. -/
theorem c4_save_failure_invisible (hf : Bool) (cw : Except String Unit)
    (rr : Except String String) (gr : Except String String)
    (jp : String → Option Json) (e : String) :
    (analyzeReport ⟨hf, cw, rr, gr, jp, .ok ()⟩).1 =
      (analyzeReport ⟨hf, cw, rr, gr, jp, .error e⟩).1 := by
  cases hf with
  | false => rfl
  | true =>
    cases cw with
    | error m => rfl
    | ok u =>
      cases rr with
      | error m => rfl
      | ok t =>
        by_cases ht : jsTrim t = ""
        · simp [analyzeReport, ht]
        · cases gr with
          | error m => simp [analyzeReport, ht]
          | ok c =>
            by_cases hc : c = ""
            · simp [analyzeReport, ht, hc]
            · by_cases hb : (jsStartsWith (jsTrim c) "\x7b" && jsEndsWith (jsTrim c) "\x7d") = true
              · cases hn : normalize jp (jsTrim c) with
                | mk r d => cases d <;> simp [analyzeReport, ht, hc, hb, hn]
              · have hb' : (jsStartsWith (jsTrim c) "\x7b" && jsEndsWith (jsTrim c) "\x7d") = false := by
                  simpa using hb
                simp [analyzeReport, ht, hc, hb']

/-- C9: whenever the OCR worker was acquired, it is terminated before
the request is answered, on the success and on the failure path of
recognition alike. -/
theorem c9_worker_always_terminated (o : Oracles)
    (h : (analyzeReport o).2.workerCreated = true) :
    (analyzeReport o).2.workerTerminated = true := by
  obtain ⟨hf, cw, rr, gr, jp, sv⟩ := o
  cases hf with
  | false => simp [analyzeReport] at h
  | true =>
    cases cw with
    | error m => simp [analyzeReport] at h
    | ok u =>
      cases rr with
      | error m => rfl
      | ok t =>
        by_cases ht : jsTrim t = ""
        · simp [analyzeReport, ht]
        · cases gr with
          | error m => simp [analyzeReport, ht]
          | ok c =>
            by_cases hc : c = ""
            · simp [analyzeReport, ht, hc]
            · by_cases hb : (jsStartsWith (jsTrim c) "\x7b" && jsEndsWith (jsTrim c) "\x7d") = true
              · cases hn : normalize jp (jsTrim c) with
                | mk r d => cases d <;> simp [analyzeReport, ht, hc, hb, hn]
              · have hb' : (jsStartsWith (jsTrim c) "\x7b" && jsEndsWith (jsTrim c) "\x7d") = false := by
                  simpa using hb
                simp [analyzeReport, ht, hc, hb']

theorem c9_witness :
    (analyzeReport ⟨true, .ok (), .ok "t", .ok "c", fun _ => none, .ok ()⟩).2.workerTerminated = true :=
  c9_worker_always_terminated ⟨true, .ok (), .ok "t", .ok "c", fun _ => none, .ok ()⟩ rfl

/-- C6: empty or whitespace-only extracted text ends the request with
the 400 no-text response, before the completion, normalization or
persistence stage runs. -/
theorem c6_empty_text_400 (t : String) (gr : Except String String)
    (jp : String → Option Json) (sv : Except String Unit)
    (ht : jsTrim t = "") :
    analyzeReport ⟨true, .ok (), .ok t, gr, jp, sv⟩ =
      (⟨400, some false, some "No text could be extracted from the image",
        none, none, none, none⟩,
       ⟨true, true, false, false, false, none, false⟩) := by
  simp [analyzeReport, ht]

theorem c6_witness :
    analyzeReport ⟨true, .ok (), .ok "   ", .ok "z", fun _ => none, .ok ()⟩ =
      (⟨400, some false, some "No text could be extracted from the image",
        none, none, none, none⟩,
       ⟨true, true, false, false, false, none, false⟩) :=
  c6_empty_text_400 "   " (.ok "z") (fun _ => none) (.ok ()) (by decide)

/-- C1 counterexample: a completion whose text is not enclosed in
curly braces is answered with the 500 Failed-to-analyze error, not
with the documented 200 fallback record and warning. -/
theorem c1_counterexample :
    (analyzeReport ⟨true, .ok (), .ok "report text", .ok "Hello world",
        fun _ => none, .ok ()⟩).1.status = 500
    ∧ (analyzeReport ⟨true, .ok (), .ok "report text", .ok "Hello world",
        fun _ => none, .ok ()⟩).1.warning = none
    ∧ (analyzeReport ⟨true, .ok (), .ok "report text", .ok "Hello world",
        fun _ => none, .ok ()⟩).1.analysis = none :=
  ⟨rfl, rfl, rfl⟩

/-- C1 amended: a completion failing the curly-brace gate yields the
500 Failed-to-analyze response; a braced completion whose parse
throws yields the 200 fallback response with the warning. -/
theorem c1_amended (t content : String) (jp : String → Option Json)
    (sv : Except String Unit)
    (ht : jsTrim t ≠ "") (hc : content ≠ "") :
    (¬(jsStartsWith (jsTrim content) "\x7b" = true
        ∧ jsEndsWith (jsTrim content) "\x7d" = true) →
      (analyzeReport ⟨true, .ok (), .ok t, .ok content, jp, sv⟩).1 =
        ⟨500, some false, some "Failed to analyze report",
          some "Invalid JSON structure in API response", none, none, none⟩)
    ∧ (jsStartsWith (jsTrim content) "\x7b" = true →
        jsEndsWith (jsTrim content) "\x7d" = true →
        jp (jsTrim content) = none →
      (analyzeReport ⟨true, .ok (), .ok t, .ok content, jp, sv⟩).1 =
        ⟨200, some true, none, none, some t, some fallbackAnalysis,
          some "Error parsing AI response, showing fallback analysis"⟩) := by
  constructor
  · intro hbr
    have hb : (jsStartsWith (jsTrim content) "\x7b" && jsEndsWith (jsTrim content) "\x7d") = false := by
      cases h1 : jsStartsWith (jsTrim content) "\x7b" <;>
        cases h2 : jsEndsWith (jsTrim content) "\x7d" <;> simp_all
    simp [analyzeReport, ht, hc, hb]
  · intro h1 h2 hp
    simp [analyzeReport, ht, hc, h1, h2, normalize, hp]

theorem c1_witness :
    (¬(jsStartsWith (jsTrim "nope") "\x7b" = true
        ∧ jsEndsWith (jsTrim "nope") "\x7d" = true) →
      (analyzeReport ⟨true, .ok (), .ok "x", .ok "nope", fun _ => none, .ok ()⟩).1 =
        ⟨500, some false, some "Failed to analyze report",
          some "Invalid JSON structure in API response", none, none, none⟩)
    ∧ (jsStartsWith (jsTrim "nope") "\x7b" = true →
        jsEndsWith (jsTrim "nope") "\x7d" = true →
        (fun (_ : String) => (none : Option Json)) (jsTrim "nope") = none →
      (analyzeReport ⟨true, .ok (), .ok "x", .ok "nope", fun _ => none, .ok ()⟩).1 =
        ⟨200, some true, none, none, some "x", some fallbackAnalysis,
          some "Error parsing AI response, showing fallback analysis"⟩) :=
  c1_amended "x" "nope" (fun _ => none) (.ok ()) (by decide) (by decide)

/-- C5 counterexample: a gracefully degraded run answers 200 with the
warning, yet never hands the fallback record to persistence; the
save step is skipped by the early return. -/
theorem c5_counterexample :
    (analyzeReport ⟨true, .ok (), .ok "txt", .ok "\x7bnotjson\x7d",
        fun _ => none, .ok ()⟩).1.status = 200
    ∧ (analyzeReport ⟨true, .ok (), .ok "txt", .ok "\x7bnotjson\x7d",
        fun _ => none, .ok ()⟩).1.warning =
        some "Error parsing AI response, showing fallback analysis"
    ∧ (analyzeReport ⟨true, .ok (), .ok "txt", .ok "\x7bnotjson\x7d",
        fun _ => none, .ok ()⟩).2.saveAttempted = false
    ∧ (analyzeReport ⟨true, .ok (), .ok "txt", .ok "\x7bnotjson\x7d",
        fun _ => none, .ok ()⟩).2.savedReport = none :=
  ⟨rfl, rfl, rfl, rfl⟩

/-- C5 amended: the save is attempted at the end of every
non-degraded successful run, and is skipped whenever normalization
fell back to the degraded record. -/
theorem c5_amended (t c : String) (jp : String → Option Json)
    (sv : Except String Unit)
    (ht : jsTrim t ≠ "") (hc : c ≠ "")
    (h1 : jsStartsWith (jsTrim c) "\x7b" = true)
    (h2 : jsEndsWith (jsTrim c) "\x7d" = true) :
    ((normalize jp (jsTrim c)).2 = false →
      (analyzeReport ⟨true, .ok (), .ok t, .ok c, jp, sv⟩).2.saveAttempted = true)
    ∧ ((normalize jp (jsTrim c)).2 = true →
      (analyzeReport ⟨true, .ok (), .ok t, .ok c, jp, sv⟩).2.saveAttempted = false) := by
  constructor
  · intro hd
    cases hn : normalize jp (jsTrim c) with
    | mk r d =>
        rw [hn] at hd
        cases d with
        | true => exact absurd hd (by simp)
        | false => simp [analyzeReport, ht, hc, h1, h2, hn]
  · intro hd
    cases hn : normalize jp (jsTrim c) with
    | mk r d =>
        rw [hn] at hd
        cases d with
        | false => exact absurd hd (by simp)
        | true => simp [analyzeReport, ht, hc, h1, h2, hn]

theorem c5_witness :
    (((normalize (fun _ => none) (jsTrim "\x7b\x7d")).2 = false →
      (analyzeReport ⟨true, .ok (), .ok "x", .ok "\x7b\x7d",
        fun _ => none, .ok ()⟩).2.saveAttempted = true)
    ∧ ((normalize (fun _ => none) (jsTrim "\x7b\x7d")).2 = true →
      (analyzeReport ⟨true, .ok (), .ok "x", .ok "\x7b\x7d",
        fun _ => none, .ok ()⟩).2.saveAttempted = false)) :=
  c5_amended "x" "\x7b\x7d" (fun _ => none) (.ok ())
    (by decide) (by decide) (by decide) (by decide)

/-- C2 counterexample: a successfully parsed object that is missing
required sections is not filled with defaults; the missing-field
check throws and the degraded fallback is returned instead. -/
theorem c2_counterexample :
    normalize
      (fun s => if s = "\x7b\"keyFindings\":[]\x7d"
        then some (.jobj [("keyFindings", .jarr [] [])]) else none)
      "\x7b\"keyFindings\":[]\x7d" = (fallbackAnalysis, true) := rfl

/-- C2 amended: when all five sections are present and the
numericalData value is falsy or of object or array kind, each falsy
section is replaced by its default, truthy sections other than
numericalData are kept (numericalData gains its nested sub-array
defaulting), other keys are untouched, and the result is
non-degraded; an object actually missing a section gets the
degraded fallback instead, and so does an object whose
numericalData is a truthy primitive, because the nested metrics
assignment throws. -/
theorem c2_amended (jp : String → Option Json) (s : String)
    (o : List (String × Json)) (hparse : jp s = some (.jobj o)) :
    (∀ ndv : Json,
      getAssoc o "numericalData" = some ndv →
      (getAssoc o "keyFindings").isSome = true →
      (getAssoc o "recommendations").isSome = true →
      (getAssoc o "urgentConcerns").isSome = true →
      (getAssoc o "simplifiedSummary").isSome = true →
      (truthy ndv = false ∨ isObjLike ndv = true) →
      (normalize jp s).2 = false
      ∧ getField (normalize jp s).1 "keyFindings"
          = some (readOr (.jobj o) "keyFindings" (.jarr [] []))
      ∧ getField (normalize jp s).1 "recommendations"
          = some (readOr (.jobj o) "recommendations" (.jarr [] []))
      ∧ getField (normalize jp s).1 "urgentConcerns"
          = some (readOr (.jobj o) "urgentConcerns" (.jarr [] []))
      ∧ getField (normalize jp s).1 "simplifiedSummary"
          = some (readOr (.jobj o) "simplifiedSummary" defaultSimplifiedSummary)
      ∧ getField (normalize jp s).1 "numericalData"
          = some (ndDefaultedG (readOr (.jobj o) "numericalData" defaultNumericalData))
      ∧ ∀ k, k ∉ requiredFields → getField (normalize jp s).1 k = getAssoc o k)
    ∧ (∀ k ∈ requiredFields, getAssoc o k = none →
        normalize jp s = (fallbackAnalysis, true))
    ∧ (∀ ndv : Json,
      getAssoc o "numericalData" = some ndv →
      truthy ndv = true → isObjLike ndv = false →
      normalize jp s = (fallbackAnalysis, true)) := by
  refine ⟨?_, ?_, ?_⟩
  · intro ndv hnd h2 h3 h4 h5 hshape
    have h1 : (getAssoc o "numericalData").isSome = true := by rw [hnd]; rfl
    have hro : readOr (.jobj o) "numericalData" defaultNumericalData
        = if truthy ndv then ndv else defaultNumericalData := by
      rw [readOr, getField_jobj, hnd]
    obtain ⟨v, hro2, hobjv⟩ : ∃ v, readOr (.jobj o) "numericalData" defaultNumericalData = v
        ∧ isObjLike v = true := by
      cases hshape with
      | inl hf => exact ⟨defaultNumericalData, by rw [hro]; simp [hf], rfl⟩
      | inr ho =>
          refine ⟨ndv, ?_, ho⟩
          rw [hro]
          simp [truthy_of_objLike ho]
    have hn := normalize_successG jp s o v hparse h1 h2 h3 h4 h5 hro2 hobjv
    rw [hn, hro2]
    refine ⟨rfl, filledRecordG_get_kf o v, filledRecordG_get_rc o v,
      filledRecordG_get_uc o v, filledRecordG_get_ss o v,
      filledRecordG_get_nd o v, ?_⟩
    intro k hk
    simp [requiredFields] at hk
    obtain ⟨d1, d2, d3, d4, d5⟩ := hk
    exact filledRecordG_get_other o v k d1 d2 d3 d4 d5
  · intro k hk hnone
    exact normalize_missing jp s o hparse k hk hnone
  · intro ndv hnd htr hnob
    have hro : readOr (.jobj o) "numericalData" defaultNumericalData = ndv := by
      rw [readOr, getField_jobj, hnd]
      simp [htr]
    have hsf : setField ndv "metrics" (readOr ndv "metrics" (.jarr [] []))
        = .error () := setField_notObjLike _ _ _ hnob
    cases hc : checkRequired (.jobj o) with
    | error e => simp only [normalize, hparse, validateAndDefault, hc]
    | ok u =>
        have hdf : defaultFields (.jobj o) = .error () := by
          simp only [defaultFields, Bind.bind, Except.bind, hro, setField_jobj,
            defaultNested, getField_jobj, getAssoc_setAssoc_self,
            nestedDefault, hsf]
        simp only [normalize, hparse, validateAndDefault, hc, hdf]

theorem c2_witness :
    (normalize c2jp c2str).2 = false
    ∧ getField (normalize c2jp c2str).1 "recommendations" = some (.jarr [] [])
    ∧ getField (normalize c2jp c2str).1 "urgentConcerns" = some (.jarr [] []) := by
  have h := (c2_amended c2jp c2str c2obj rfl).1 .jnull
    rfl rfl rfl rfl rfl (Or.inl rfl)
  exact ⟨h.1, h.2.2.1, h.2.2.2.1⟩

/-- C3 counterexample: a truthy section of the wrong type is passed
through unchanged, so the non-degraded record can hold a string
where a list is expected. -/
theorem c3_counterexample :
    (normalize c3jp c3str).2 = false
    ∧ getField (normalize c3jp c3str).1 "keyFindings" = some (.jstr "oops")
    ∧ Json.isArr (.jstr "oops") = false :=
  ⟨rfl, rfl, rfl⟩

/-- C3 amended: the normalization stage is total and every record it
produces carries all five required top-level keys, for every parse
outcome; the per-key container types are guaranteed only for
defaulted and fallback content, not for truthy values passed
through. -/
theorem c3_amended (jp : String → Option Json) (s : String) :
    hasAllRequired (normalize jp s).1 = true := by
  cases hp : jp s with
  | none =>
      simp only [normalize, hp]
      rfl
  | some p =>
      simp only [normalize, hp]
      cases hv : validateAndDefault p with
      | error e =>
          simp only [hv]
          rfl
      | ok r =>
          simp only [hv]
          rw [validateAndDefault] at hv
          cases hc : checkRequired p with
          | error e => rw [hc] at hv; exact absurd hv (fun h => Except.noConfusion h)
          | ok u => rw [hc] at hv; exact defaultFields_total hv

/-- C7 counterexample: a successful run saves a report, but the
report schema has no userId field and the handler receives no caller
identity, so no saved report can carry the authenticated caller. -/
theorem c7_counterexample :
    ("userId" ∉ reportSchemaFields)
    ∧ ((analyzeReport ⟨true, .ok (), .ok "Hemoglobin 10 g/dL", .ok c7raw,
        c7jp, .ok ()⟩).2.savedReport).isSome = true
    ∧ (analyzeReport ⟨true, .ok (), .ok "Hemoglobin 10 g/dL", .ok c7raw,
        c7jp, .ok ()⟩).2.storedOk = true :=
  ⟨by decide, rfl, rfl⟩

/-- C7 amended: every report handed to the store by a non-degraded
successful run stores the extracted text as originalText, the
trimmed raw completion as summary, and the normalized analysis; no
user identity is recorded anywhere. -/
theorem c7_amended (t c : String) (jp : String → Option Json)
    (sv : Except String Unit)
    (ht : jsTrim t ≠ "") (hc : c ≠ "")
    (h1 : jsStartsWith (jsTrim c) "\x7b" = true)
    (h2 : jsEndsWith (jsTrim c) "\x7d" = true)
    (hnd : (normalize jp (jsTrim c)).2 = false) :
    (analyzeReport ⟨true, .ok (), .ok t, .ok c, jp, sv⟩).2.savedReport =
      some ⟨t, jsTrim c, (normalize jp (jsTrim c)).1⟩ := by
  cases hn : normalize jp (jsTrim c) with
  | mk r d =>
      rw [hn] at hnd
      cases d with
      | true => exact absurd hnd (by simp)
      | false => simp [analyzeReport, ht, hc, h1, h2, hn]

theorem c7_witness :
    (analyzeReport ⟨true, .ok (), .ok "Hemoglobin 10", .ok c7raw,
      c7jp, .ok ()⟩).2.savedReport =
      some ⟨"Hemoglobin 10", jsTrim c7raw, (normalize c7jp (jsTrim c7raw)).1⟩ :=
  c7_amended "Hemoglobin 10" c7raw c7jp (.ok ())
    (by decide) (by decide) (by decide) (by decide) rfl

/-- C8 counterexample: the query has no notion of a requesting user;
the schema has no userId field and both stored reports are returned
to any caller. -/
theorem c8_counterexample :
    ("userId" ∉ reportSchemaFields)
    ∧ findReports [⟨"t1", "s1", .jnull, 1⟩, ⟨"t2", "s2", .jnull, 2⟩] =
        [⟨"t2", "s2", .jnull, 2⟩, ⟨"t1", "s1", .jnull, 1⟩] :=
  ⟨by decide, rfl⟩

/-- C8 amended: the reports query returns at most ten stored
reports, ordered newest first by createdAt, each drawn from the
store; it applies no per-user filter. -/
theorem c8_amended (store : List StoredReport) :
    (findReports store).length ≤ 10
    ∧ List.Sorted newerFirst (findReports store)
    ∧ ∀ x ∈ findReports store, x ∈ store := by
  refine ⟨List.length_take_le _ _, ?_, ?_⟩
  · exact (List.sorted_insertionSort newerFirst store).sublist
      (List.take_sublist _ _)
  · intro x hx
    exact (List.mem_insertionSort newerFirst).mp (List.take_subset _ _ hx)

theorem c8_witness :
    (findReports [⟨"t1", "s1", .jnull, 1⟩, ⟨"t2", "s2", .jnull, 2⟩]).length ≤ 10
    ∧ List.Sorted newerFirst
        (findReports [⟨"t1", "s1", .jnull, 1⟩, ⟨"t2", "s2", .jnull, 2⟩])
    ∧ ∀ x ∈ findReports [⟨"t1", "s1", .jnull, 1⟩, ⟨"t2", "s2", .jnull, 2⟩],
        x ∈ [⟨"t1", "s1", .jnull, 1⟩, ⟨"t2", "s2", .jnull, 2⟩] :=
  c8_amended [⟨"t1", "s1", .jnull, 1⟩, ⟨"t2", "s2", .jnull, 2⟩]

/-- C10: when numericalData is a present object whose metrics or
suggestedVisualizations sub-array is missing or null, the nested
defaulting replaces it with an empty array. -/
theorem c10_nested_defaulting (jp : String → Option Json) (s : String)
    (o nf : List (String × Json))
    (hparse : jp s = some (.jobj o))
    (h2 : (getAssoc o "keyFindings").isSome = true)
    (h3 : (getAssoc o "recommendations").isSome = true)
    (h4 : (getAssoc o "urgentConcerns").isSome = true)
    (h5 : (getAssoc o "simplifiedSummary").isSome = true)
    (hnd : getAssoc o "numericalData" = some (.jobj nf)) :
    ((getAssoc nf "metrics" = none ∨ getAssoc nf "metrics" = some .jnull) →
      ∃ nd', getField (normalize jp s).1 "numericalData" = some nd'
        ∧ getField nd' "metrics" = some (.jarr [] []))
    ∧ ((getAssoc nf "suggestedVisualizations" = none
        ∨ getAssoc nf "suggestedVisualizations" = some .jnull) →
      ∃ nd', getField (normalize jp s).1 "numericalData" = some nd'
        ∧ getField nd' "suggestedVisualizations" = some (.jarr [] [])) := by
  have h1 : (getAssoc o "numericalData").isSome = true := by rw [hnd]; rfl
  have hnf : readOr (.jobj o) "numericalData" defaultNumericalData = .jobj nf := by
    simp [readOr, getField_jobj, hnd, truthy]
  have hn := normalize_success jp s o nf hparse h1 h2 h3 h4 h5 hnf
  rw [hn]
  constructor
  · intro hm
    refine ⟨ndDefaulted nf, filledRecord_get_nd o nf, ?_⟩
    rw [ndDefaulted_get_metrics]
    cases hm with
    | inl h => simp [readOr, getField_jobj, h]
    | inr h => simp [readOr, getField_jobj, h, truthy]
  · intro hm
    refine ⟨ndDefaulted nf, filledRecord_get_nd o nf, ?_⟩
    rw [ndDefaulted_get_sv]
    have hsv : getAssoc (setAssoc nf "metrics"
        (readOr (.jobj nf) "metrics" (.jarr [] []))) "suggestedVisualizations"
        = getAssoc nf "suggestedVisualizations" :=
      getAssoc_setAssoc_ne _ _ _ _ (by decide)
    cases hm with
    | inl h =>
        rw [readOr, getField_jobj, hsv, h]
    | inr h =>
        rw [readOr, getField_jobj, hsv, h]
        rfl

theorem c10_witness :
    ∃ nd', getField (normalize c10jp c10str).1 "numericalData" = some nd'
      ∧ getField nd' "metrics" = some (.jarr [] []) :=
  (c10_nested_defaulting c10jp c10str c10obj [] rfl rfl rfl rfl rfl rfl).1
    (Or.inl rfl)

end Apollo
